import Mathlib

/-!
Shallow embedding of the core authentication routines of pam-krb5
(src/auth.c and src/fast.c).

C strings are modelled as lists of characters (`CStr`), machine integers
as `Int`, and every external library or system call (Kerberos library,
PAM item store, conversation function, filesystem) as a field of an
explicit oracle structure (`World`, `K5Env`, `FastWorld`) whose value is
fixed for the duration of one authentication attempt.  Output structures
carry ghost fields (`attempted`, `prompts`, `verifyRan`, `preMapErr`,
...) that record the observable events of a run; they mirror, not alter,
the control flow of the C source.

The embedding models the build configuration of the source:
`pkinitSupported` stands for `HAVE_KRB5_HEIMDAL &&
HAVE_KRB5_GET_INIT_CREDS_OPT_SET_PKINIT`; the FAST code is modelled for
the branch where `HAVE_KRB5_GET_INIT_CREDS_OPT_SET_ANONYMOUS` and
`HAVE_KRB5_GET_INIT_CREDS_OPT_SET_OUT_CCACHE` are available.
-/

/-- C strings, modelled as lists of characters. -/
abbrev CStr := List Char

/-- PAM result codes (Linux-PAM numeric values). -/
def PAM_SUCCESS : Int := 0

/-- PAM service error code. -/
def PAM_SERVICE_ERR : Int := 3

/-- PAM generic authentication failure code. -/
def PAM_AUTH_ERR : Int := 7

/-- PAM authentication-information-unavailable code. -/
def PAM_AUTHINFO_UNAVAIL : Int := 9

/-- PAM user-unknown code. -/
def PAM_USER_UNKNOWN : Int := 10

/-- PAM new-authentication-token-required code. -/
def PAM_NEW_AUTHTOK_REQD : Int := 12

/-- PAM account-expired code. -/
def PAM_ACCT_EXPIRED : Int := 13

/-- Kerberos protocol error: client principal unknown (com_err base
-1765328384 plus protocol code 6). -/
def KRB5KDC_ERR_C_PRINCIPAL_UNKNOWN : Int := -1765328378

/-- Kerberos protocol error: client name expired (protocol code 1). -/
def KRB5KDC_ERR_NAME_EXP : Int := -1765328383

/-- Kerberos protocol error: client key expired (protocol code 23). -/
def KRB5KDC_ERR_KEY_EXP : Int := -1765328361

/-- Kerberos protocol error: integrity check failed, the code the
library reports for a wrong password (protocol code 31). -/
def KRB5KRB_AP_ERR_BAD_INTEGRITY : Int := -1765328353

/-- Kerberos library error: cannot contact any KDC for the realm. -/
def KRB5_KDC_UNREACH : Int := -1765328228

/-- Kerberos library error: cannot resolve KDC addresses for the realm.
Only its being distinct from the other codes matters here. -/
def KRB5_REALM_CANT_RESOLVE : Int := -1765328164

/-- Kerberos credential-cache out-of-memory error. -/
def KRB5_CC_NOMEM : Int := -1765328174

/-- POSIX out-of-memory errno. -/
def ENOMEM : Int := 12

/-- Heimdal hx509 smart-card status: no token present.  Only its being
nonzero and distinct from the other codes matters to the control flow. -/
def HX509_PKCS11_NO_TOKEN : Int := 34603051

/-- Heimdal hx509 smart-card status: no slot present. -/
def HX509_PKCS11_NO_SLOT : Int := 34603052

/-- The krb5_context as far as this module observes it: the library's
default realm (possibly a stale cached one, which is why parse_name
synthesizes `name@realm` itself). -/
structure KrbContext where
  defaultRealm : CStr
deriving DecidableEq

/-- A parsed Kerberos principal: primary name component(s) and realm. -/
structure Principal where
  primary : CStr
  realm : CStr
deriving DecidableEq

/-- Split `user@realm` at the first realm separator. -/
def splitRealm : CStr → Option (CStr × CStr)
  | [] => none
  | ch :: rest =>
      if ch = '@' then some ([], rest)
      else (splitRealm rest).map (fun pr => (ch :: pr.1, pr.2))

/-- Model of krb5_parse_name: a name with a separator splits at the
first one (a further separator inside the realm is a parse error); a
name with no separator is completed with the library context's default
realm. -/
def krb5_parse_name (c : KrbContext) (s : CStr) : Option Principal :=
  match splitRealm s with
  | none => some ⟨s, c.defaultRealm⟩
  | some nr => if nr.2.contains '@' then none else some ⟨nr.1, nr.2⟩

/-- A password database entry as far as k5login_password_auth uses it. -/
structure Passwd where
  pw_uid : Nat
  pw_dir : CStr
deriving DecidableEq

/-- Filesystem/library environment of one k5login_password_auth call:
getpwnam result, filename malloc outcome, access(2) and fopen(2)
outcomes, fstat(2) outcome (owner uid of the opened .k5login), the
errno value read on the failure paths, and the successive fgets(3)
results (each chunk is what one fgets call returns; a chunk ends with a
newline unless the underlying line overflowed the buffer or the file
ended without one). -/
structure K5Env where
  pwd : Option Passwd
  mallocOk : Bool
  accessOk : Bool
  fopenOk : Bool
  fstatUid : Option Nat
  errnoVal : Int
  chunks : List CStr
deriving DecidableEq

/-- Result of k5login_password_auth: the PAM code, the Kerberos error
returned by reference in `*retval`, the context's principal afterwards,
and (ghost) the candidates for which an exchange was attempted, in
order. -/
structure K5Out where
  pam : Int
  retval : Int
  princ : Principal
  attempted : List Principal
deriving DecidableEq

/-- Does an fgets chunk end with a line separator (C: line[len-1] ==
a newline)? -/
def chunkTerminated (ch : CStr) : Bool := ch.getLast? == some '\n'

/-- The read loop of k5login_password_auth over the remaining fgets
chunks.  `skipping` models the inner while loop that discards the rest
of an overlong line; `rv` is the current value of `*retval`; `att`
accumulates the attempted candidates. -/
def k5loginLoop (c : KrbContext) (auth : Principal → CStr → Int) (pass : CStr)
    (princ0 : Principal) : List CStr → Bool → Int → List Principal → K5Out
  | [], _, rv, att => ⟨PAM_AUTH_ERR, rv, princ0, att⟩
  | ch :: rest, skipping, rv, att =>
      if skipping then
        if chunkTerminated ch then k5loginLoop c auth pass princ0 rest false rv att
        else k5loginLoop c auth pass princ0 rest true rv att
      else if ¬ chunkTerminated ch then k5loginLoop c auth pass princ0 rest true rv att
      else
        match krb5_parse_name c ch.dropLast with
        | none => k5loginLoop c auth pass princ0 rest false rv att
        | some p =>
            if auth p pass = 0 then ⟨PAM_SUCCESS, 0, p, att ++ [p]⟩
            else k5loginLoop c auth pass princ0 rest false (auth p pass) (att ++ [p])

/-- Model of k5login_password_auth.  `auth` is
krb5_get_init_creds_password specialised to this call's password
options and service; `princ0` is ctx->princ on entry. -/
def k5login_password_auth (c : KrbContext) (auth : Principal → CStr → Int)
    (princ0 : Principal) (pass : CStr) (env : K5Env) : K5Out :=
  match env.pwd with
  | none =>
      ⟨if auth princ0 pass = 0 then PAM_SUCCESS else PAM_AUTH_ERR,
        auth princ0 pass, princ0, [princ0]⟩
  | some pw =>
      if ¬ env.mallocOk ∨ ¬ env.accessOk then
        ⟨if auth princ0 pass = 0 then PAM_SUCCESS else PAM_AUTH_ERR,
          auth princ0 pass, princ0, [princ0]⟩
      else if ¬ env.fopenOk then ⟨PAM_AUTH_ERR, env.errnoVal, princ0, []⟩
      else
        match env.fstatUid with
        | none => ⟨PAM_AUTH_ERR, env.errnoVal, princ0, []⟩
        | some uid =>
            if uid ≠ 0 ∧ uid ≠ pw.pw_uid then
              ⟨PAM_AUTH_ERR, env.errnoVal, princ0, []⟩
            else
              k5loginLoop c auth pass princ0 env.chunks false
                KRB5KRB_AP_ERR_BAD_INTEGRITY []

/-- A chunk holding a well-formed candidate line whose exchange fails
with the given password: it is newline-terminated, parses as a
principal, and krb5_get_init_creds_password rejects that principal. -/
def failingCandB (c : KrbContext) (auth : Principal → CStr → Int)
    (pass : CStr) (ch : CStr) : Bool :=
  chunkTerminated ch &&
    (match krb5_parse_name c ch.dropLast with
     | some q => auth q pass != 0
     | none => false)

/-- The candidate principals parsed from a list of chunks. -/
def lineCands (c : KrbContext) (chunks : List CStr) : List Principal :=
  chunks.filterMap (fun ch => krb5_parse_name c ch.dropLast)

/-- Module configuration as far as the authentication core reads it.
`ctxSet` is args->ctx != NULL; `pkinitSupported` is the compile-time
availability of the Heimdal PKINIT interface. -/
structure PamArgs where
  ctxSet : Bool
  name : CStr
  defaultRealm : CStr
  realm : Option CStr
  prompt_princ : Bool
  search_k5login : Bool
  pkinitSupported : Bool
  use_pkinit : Bool
  try_pkinit : Bool
  try_first_pass : Bool
  use_first_pass : Bool
  use_authtok : Bool
deriving DecidableEq

/-- Oracle for one pamk5_password_auth call: the outcome of every
external call the routine can make.  `auth` is
krb5_get_init_creds_password (indexed by principal and password);
`prompts` gives the result of the n-th pamk5_get_password call;
`getItem` is the stored PAM authentication token, `aname` is
krb5_aname_to_localname, `verify` the verify_creds outcome. -/
structure World where
  convPrinc : Option CStr
  synthMallocOk : Bool
  aname : Principal → Option CStr
  pkinitCallocOk : Bool
  pkinitOptAlloc : Int
  pkinitSetOpt : Int
  pkinitExchange : Int
  callocOk : Bool
  optAlloc : Int
  getItem : Option CStr
  prompts : Nat → Option CStr
  setItemOk : Bool
  auth : Principal → CStr → Int
  verify : Int
  k5env : K5Env

/-- Result of parse_name: the principal (none when a nonzero Kerberos
error is returned), ctx->name afterwards, and (ghost) the exact string
handed to krb5_parse_name, if it was reached. -/
structure ResolveOut where
  princ : Option Principal
  name : CStr
  parsedInput : Option CStr
deriving DecidableEq

/-- The working name of parse_name: ctx->name, unless principal
prompting is configured and yields a nonempty response (an empty
response or a failed conversation falls back to ctx->name). -/
def resolveUser (a : PamArgs) (w : World) : CStr :=
  if a.prompt_princ then
    match w.convPrinc with
    | none => a.name
    | some u => if u = [] then a.name else u
  else a.name

/-- The tail of parse_name: parse the (possibly realm-qualified)
working name, then, when the original ctx->name contains a separator,
try to canonicalize ctx->name to a local account name; a mapping (or
strdup) failure there is ignored and resolution still succeeds. -/
def parseTail (a : PamArgs) (w : World) (user2 : CStr) : ResolveOut :=
  match krb5_parse_name ⟨a.defaultRealm⟩ user2 with
  | none => ⟨none, a.name, some user2⟩
  | some p =>
      if a.name.contains '@' then
        match w.aname p with
        | none => ⟨some p, a.name, some user2⟩
        | some ln => ⟨some p, ln, some user2⟩
      else ⟨some p, a.name, some user2⟩

/-- Model of parse_name: when the working name has no realm separator
and a default realm is configured, synthesize `name@realm` before
parsing (the malloc for the synthesized string can fail, which is
returned as KRB5_CC_NOMEM, i.e. a parse failure here). -/
def parse_name (a : PamArgs) (w : World) : ResolveOut :=
  match a.realm with
  | some r =>
      if (resolveUser a w).contains '@' then parseTail a w (resolveUser a w)
      else if w.synthMallocOk then parseTail a w (resolveUser a w ++ '@' :: r)
      else ⟨none, a.name, none⟩
  | none => parseTail a w (resolveUser a w)

/-- A krb5_creds buffer: `none` models a zeroed, not-yet-filled
structure, `some p` one filled by a successful exchange for client `p`. -/
abbrev Creds := Option Principal

/-- Result of pamk5_password_auth: the PAM code and the `*creds` output
(`none` when it is null or was never constructed), plus ghost records
of the run: whether principal resolution ran, whether a krb5_creds
buffer was allocated, the principals for which a password exchange was
attempted, the number of password prompts, whether verify_creds ran,
whether the acquisition phase reported success (retval == 0 on entry to
the done block), and the Kerberos/PAM error that reached the final
mapping switch, if any. -/
structure AuthOut where
  code : Int
  creds : Option Creds
  resolveRan : Bool
  allocRan : Bool
  attempted : List Principal
  prompts : Nat
  verifyRan : Bool
  acqOk : Bool
  preMapErr : Option Int
deriving DecidableEq

/-- The direct error returns of pamk5_password_auth that bypass the
done block (null context, parse_name failure, calloc failure). -/
def earlyAuthOut (resolveRan allocRan : Bool) : AuthOut :=
  ⟨PAM_SERVICE_ERR, none, resolveRan, allocRan, [], 0, false, false, none⟩

/-- The final error-mapping switch of pamk5_password_auth. -/
def mapKrbError (e : Int) : Int :=
  if e = KRB5KDC_ERR_C_PRINCIPAL_UNKNOWN then PAM_USER_UNKNOWN
  else if e = KRB5KDC_ERR_KEY_EXP then PAM_NEW_AUTHTOK_REQD
  else if e = KRB5KDC_ERR_NAME_EXP then PAM_ACCT_EXPIRED
  else if e = KRB5_KDC_UNREACH ∨ e = KRB5_REALM_CANT_RESOLVE then
    PAM_AUTHINFO_UNAVAIL
  else PAM_AUTH_ERR

/-- The value of retval after the verification step of the done block:
verify_creds runs exactly when retval is 0 and no service was
requested. -/
def doneRetval (w : World) (service : Option CStr) (retval : Int) : Int :=
  if retval = 0 ∧ service.isNone then w.verify else retval

/-- The done block of pamk5_password_auth: optionally verify the
credentials, then either return PAM_SUCCESS with the credentials, or
release them and map the error.  `_credsValid` only selects which free
is performed in C and does not affect the outputs (on the PKINIT paths
it is in fact read uninitialized by the C code). -/
def doneBlock (w : World) (service : Option CStr) (retval : Int)
    (creds : Option Creds) (_credsValid : Bool) (resolveRan allocRan : Bool)
    (attempted : List Principal) (prompts : Nat) : AuthOut :=
  if doneRetval w service retval = 0 then
    ⟨PAM_SUCCESS, creds, resolveRan, allocRan, attempted, prompts,
      retval == 0 && service.isNone, retval == 0, none⟩
  else
    ⟨mapKrbError (doneRetval w service retval), none, resolveRan, allocRan,
      attempted, prompts, retval == 0 && service.isNone, retval == 0,
      some (doneRetval w service retval)⟩

/-- Model of pkinit_auth (Heimdal build): allocate `*creds`, then the
option structure, set the PKINIT options and run the exchange with a
null password.  Returns the Kerberos code and the `*creds` output.  On
the opt_alloc failure path the C function returns early without freeing
the already-allocated empty creds buffer (`some none`); every other
failure leaves `*creds` null.  The optional pkinit_prompt conversation
only shows a message and discards the input, so it is not modelled. -/
def pkinit_auth (w : World) (princ : Principal) : Int × Option Creds :=
  if ¬ w.pkinitCallocOk then (ENOMEM, none)
  else if w.pkinitOptAlloc ≠ 0 then (w.pkinitOptAlloc, some none)
  else if (if w.pkinitSetOpt ≠ 0 then w.pkinitSetOpt else w.pkinitExchange) ≠ 0 then
    ((if w.pkinitSetOpt ≠ 0 then w.pkinitSetOpt else w.pkinitExchange), none)
  else (0, some (some princ))

/-- One credential-acquisition attempt of the password loop: through
k5login_password_auth when search_k5login is set, a single direct
krb5_get_init_creds_password call otherwise.  `success` is the PAM
code, `retval` the Kerberos code, `princ` the context principal
afterwards, `client` the filled credential's client on success, `tried`
the principals attempted. -/
structure AttemptOut where
  success : Int
  retval : Int
  princ : Principal
  client : Option Principal
  tried : List Principal
deriving DecidableEq

/-- Dispatch of one password attempt (the body of the do-while loop
between the prompt handling and the retry test). -/
def loopAttempt (a : PamArgs) (w : World) (princ : Principal) (p : CStr) :
    AttemptOut :=
  if a.search_k5login then
    ⟨(k5login_password_auth ⟨a.defaultRealm⟩ w.auth princ p w.k5env).pam,
      (k5login_password_auth ⟨a.defaultRealm⟩ w.auth princ p w.k5env).retval,
      (k5login_password_auth ⟨a.defaultRealm⟩ w.auth princ p w.k5env).princ,
      (if (k5login_password_auth ⟨a.defaultRealm⟩ w.auth princ p w.k5env).retval = 0
        then some (k5login_password_auth ⟨a.defaultRealm⟩ w.auth princ p w.k5env).princ
        else none),
      (k5login_password_auth ⟨a.defaultRealm⟩ w.auth princ p w.k5env).attempted⟩
  else
    ⟨if w.auth princ p = 0 then PAM_SUCCESS else PAM_AUTH_ERR,
      w.auth princ p, princ,
      (if w.auth princ p = 0 then some princ else none), [princ]⟩

/-- Outcome of the password loop: the retval that reaches the done
block, the context principal, the filled credential's client (some only
on success), the attempted principals and the number of prompts. -/
structure LoopOut where
  retval : Int
  princ : Principal
  client : Option Principal
  attempted : List Principal
  prompts : Nat
deriving DecidableEq

/-- The pass == NULL arm of the loop body: prompt for a password and
store it, then attempt once.  C sets `retry = 0` before prompting, so
the while condition `retry && retval == KRB5KRB_AP_ERR_BAD_INTEGRITY`
is false after this iteration and the loop exits whatever the
attempt's outcome; hence this iteration is terminal. -/
def promptIteration (a : PamArgs) (w : World) (princ : Principal)
    (pIdx : Nat) (att : List Principal) : LoopOut :=
  match w.prompts pIdx with
  | none => ⟨PAM_SERVICE_ERR, princ, none, att, pIdx + 1⟩
  | some q =>
      if ¬ w.setItemOk then ⟨PAM_SERVICE_ERR, princ, none, att, pIdx + 1⟩
      else
        if (loopAttempt a w princ q).success = PAM_SUCCESS then
          ⟨(loopAttempt a w princ q).retval, (loopAttempt a w princ q).princ,
            (if (loopAttempt a w princ q).retval = 0
              then (loopAttempt a w princ q).client else none),
            att ++ (loopAttempt a w princ q).tried, pIdx + 1⟩
        else
          ⟨(loopAttempt a w princ q).retval, (loopAttempt a w princ q).princ,
            none, att ++ (loopAttempt a w princ q).tried, pIdx + 1⟩

/-- The password do-while loop of pamk5_password_auth.  When a stored
password is available the first iteration uses it; on a
credential-mismatch failure with retry permitted the cached password is
dropped and the loop runs the prompting iteration; any other failure,
or any failure after the prompt (which cleared `retry`), exits the
loop. -/
def passwordLoop (a : PamArgs) (w : World) (princ : Principal)
    (pass : Option CStr) (retry : Bool) (pIdx : Nat) (att : List Principal) :
    LoopOut :=
  match pass with
  | none => promptIteration a w princ pIdx att
  | some p =>
      if (loopAttempt a w princ p).success = PAM_SUCCESS then
        ⟨(loopAttempt a w princ p).retval, (loopAttempt a w princ p).princ,
          (if (loopAttempt a w princ p).retval = 0
            then (loopAttempt a w princ p).client else none),
          att ++ (loopAttempt a w princ p).tried, pIdx⟩
      else if retry ∧ (loopAttempt a w princ p).retval = KRB5KRB_AP_ERR_BAD_INTEGRITY then
        promptIteration a w (loopAttempt a w princ p).princ pIdx
          (att ++ (loopAttempt a w princ p).tried)
      else
        ⟨(loopAttempt a w princ p).retval, (loopAttempt a w princ p).princ,
          none, att ++ (loopAttempt a w princ p).tried, pIdx⟩

/-- The initial password of the loop: the stored PAM item when
try_first_pass, use_first_pass or use_authtok is set, otherwise null. -/
def phasePass (a : PamArgs) (w : World) : Option CStr :=
  if a.try_first_pass ∨ a.use_first_pass ∨ a.use_authtok then w.getItem
  else none

/-- The password loop as entered by pamk5_password_auth: initial
password from phasePass, retry permitted iff try_first_pass. -/
def phaseLoop (a : PamArgs) (w : World) (princ : Principal) : LoopOut :=
  passwordLoop a w princ (phasePass a w) a.try_first_pass 0 []

/-- The password section of pamk5_password_auth: allocate the creds
buffer and options, check the use_authtok policy, run the loop, and
fall into the done block.  creds_valid is set iff the loop left retval
at zero. -/
def passwordPhase (a : PamArgs) (w : World) (service : Option CStr)
    (princ : Principal) : AuthOut :=
  if ¬ w.callocOk then earlyAuthOut true true
  else if w.optAlloc ≠ 0 then
    doneBlock w service w.optAlloc (some none) false true true [] 0
  else if a.use_authtok ∧ phasePass a w = none then
    doneBlock w service PAM_SERVICE_ERR (some none) false true true [] 0
  else
    doneBlock w service (phaseLoop a w princ).retval
      (some (phaseLoop a w princ).client) ((phaseLoop a w princ).retval == 0)
      true true (phaseLoop a w princ).attempted (phaseLoop a w princ).prompts

/-- Model of pamk5_password_auth: sanity check, principal resolution,
the PKINIT attempt (Heimdal build) or the use_pkinit failure (other
builds), then the password section, all converging on the done block. -/
def pamk5_password_auth (a : PamArgs) (w : World) (service : Option CStr) :
    AuthOut :=
  if ¬ a.ctxSet then earlyAuthOut false false
  else
    match (parse_name a w).princ with
    | none => earlyAuthOut true false
    | some princ =>
        if a.pkinitSupported ∧ (a.use_pkinit ∨ a.try_pkinit) then
          if (pkinit_auth w princ).1 = 0 then
            doneBlock w service (pkinit_auth w princ).1 (pkinit_auth w princ).2
              false true true [] 0
          else if (pkinit_auth w princ).1 ≠ HX509_PKCS11_NO_TOKEN ∧
              (pkinit_auth w princ).1 ≠ HX509_PKCS11_NO_SLOT then
            doneBlock w service (pkinit_auth w princ).1 (pkinit_auth w princ).2
              false true true [] 0
          else if (pkinit_auth w princ).1 ≠ 0 ∧ a.use_pkinit then
            doneBlock w service (pkinit_auth w princ).1 (pkinit_auth w princ).2
              false true true [] 0
          else passwordPhase a w service princ
        else if ¬ a.pkinitSupported ∧ a.use_pkinit then
          doneBlock w service KRB5_KDC_UNREACH none false true false [] 0
        else passwordPhase a w service princ

/-- The well-known anonymous principal's first name component. -/
def KRB5_WELLKNOWN_NAME : CStr := "WELLKNOWN".toList

/-- The well-known anonymous principal's second name component. -/
def KRB5_ANON_NAME : CStr := "ANONYMOUS".toList

/-- Strip a leading FILE: tag from a credential-cache directory, as
cache_init_anonymous does before building the cache path. -/
def stripFileTag : CStr → CStr
  | 'F' :: 'I' :: 'L' :: 'E' :: ':' :: rest => rest
  | d => d

/-- FAST configuration: the configured armor cache name, whether
anonymous armoring is allowed, and the cache directory. -/
structure FastConfig where
  fast_ccache : Option CStr
  anon_fast : Bool
  ccache_dir : CStr
deriving DecidableEq

/-- Oracle for the FAST routines: outcomes of the Kerberos library and
system calls made by pamk5_fast_setup and cache_init_anonymous. -/
structure FastWorld where
  getDefaultRealm : Option CStr
  getDefaultRealmErr : Int
  buildPrincErr : Int
  asprintfOk : Bool
  asprintfErrno : Int
  mkstempSuffix : Option CStr
  mkstempErrno : Int
  ccResolveErr : Int
  optAllocErr : Int
  getInitCredsAnon : Int
  ccResolveCfgErr : Int
  ccGetPrincErr : Int
  getFullNameErr : Int

/-- Result of cache_init_anonymous: the Kerberos code, the `*ccache`
output (its name; none when null), and ghost records of the exchange
request: the principal requested, the ticket lifetime and anonymous
flag set on the options, and the generated cache file path. -/
structure AnonOut where
  retval : Int
  ccache : Option CStr
  requestedPrinc : Option Principal
  requestedLife : Option Int
  requestedAnonymous : Bool
  path : Option CStr
deriving DecidableEq

/-- Model of cache_init_anonymous (anonymous-FAST-capable build with
set_out_ccache available): build the well-known anonymous principal in
the default realm, create a uniquely named cache file from the template
`krb5cc_pam_armor_XXXXXX` under the cache directory, set a fixed
60-second ticket lifetime and the anonymous flag, and acquire the
credentials; on failure the cache is destroyed and `*ccache` nulled. -/
def cache_init_anonymous (cfg : FastConfig) (fw : FastWorld) : AnonOut :=
  match fw.getDefaultRealm with
  | none => ⟨fw.getDefaultRealmErr, none, none, none, false, none⟩
  | some realm =>
      if fw.buildPrincErr ≠ 0 then ⟨fw.buildPrincErr, none, none, none, false, none⟩
      else if ¬ fw.asprintfOk then ⟨fw.asprintfErrno, none, none, none, false, none⟩
      else
        match fw.mkstempSuffix with
        | none => ⟨fw.mkstempErrno, none, none, none, false, none⟩
        | some sfx =>
            if fw.ccResolveErr ≠ 0 then
              ⟨fw.ccResolveErr, none, none, none, false,
                some (stripFileTag cfg.ccache_dir ++ ("/krb5cc_pam_armor_".toList ++ sfx))⟩
            else if fw.optAllocErr ≠ 0 then
              ⟨fw.optAllocErr, none, none, none, false,
                some (stripFileTag cfg.ccache_dir ++ ("/krb5cc_pam_armor_".toList ++ sfx))⟩
            else if fw.getInitCredsAnon ≠ 0 then
              ⟨fw.getInitCredsAnon, none,
                some ⟨KRB5_WELLKNOWN_NAME ++ '/' :: KRB5_ANON_NAME, realm⟩,
                some 60, true,
                some (stripFileTag cfg.ccache_dir ++ ("/krb5cc_pam_armor_".toList ++ sfx))⟩
            else
              ⟨0,
                some (stripFileTag cfg.ccache_dir ++ ("/krb5cc_pam_armor_".toList ++ sfx)),
                some ⟨KRB5_WELLKNOWN_NAME ++ '/' :: KRB5_ANON_NAME, realm⟩,
                some 60, true,
                some (stripFileTag cfg.ccache_dir ++ ("/krb5cc_pam_armor_".toList ++ sfx))⟩

/-- Result of pamk5_fast_setup: the cache name handed to
krb5_get_init_creds_opt_set_fast_ccache_name (none when no valid cache
was found), whether the anonymous provisioner was invoked, and its
result. -/
structure FastOut where
  fastCcacheName : Option CStr
  anonInvoked : Bool
  anon : Option AnonOut
deriving DecidableEq

/-- The anonymous fallback of pamk5_fast_setup: invoked when no
configured cache was found valid; skipped unless anon_fast is set.  On
success the new cache's full name becomes the FAST cache. -/
def fallbackAnon (cfg : FastConfig) (fw : FastWorld) : FastOut :=
  if cfg.anon_fast then
    if (cache_init_anonymous cfg fw).retval ≠ 0 then
      ⟨none, true, some (cache_init_anonymous cfg fw)⟩
    else if fw.getFullNameErr ≠ 0 then
      ⟨none, true, some (cache_init_anonymous cfg fw)⟩
    else
      ⟨(cache_init_anonymous cfg fw).ccache, true,
        some (cache_init_anonymous cfg fw)⟩
  else ⟨none, false, none⟩

/-- Model of pamk5_fast_setup (FAST-capable build): try the configured
cache first (valid when it resolves and holds a principal), fall back
on the anonymous provisioner otherwise. -/
def pamk5_fast_setup (cfg : FastConfig) (fw : FastWorld) : FastOut :=
  match cfg.fast_ccache with
  | some cname =>
      if fw.ccResolveCfgErr = 0 ∧ fw.ccGetPrincErr = 0 then
        ⟨some cname, false, none⟩
      else fallbackAnon cfg fw
  | none => fallbackAnon cfg fw

/-- A Kerberos context for the concrete test runs. -/
def ctxEx : KrbContext := ⟨"DEF.ORG".toList⟩

/-- A resolved principal for the concrete test runs. -/
def princEx : Principal := ⟨"alice".toList, "DEF.ORG".toList⟩

/-- A password-database entry for the concrete test runs. -/
def pwEx : Passwd := ⟨1000, "/home/alice".toList⟩

/-- A k5login environment with no trust file (no password entry). -/
def envNone : K5Env :=
  { pwd := none, mallocOk := true, accessOk := true, fopenOk := true,
    fstatUid := none, errnoVal := 0, chunks := [] }

/-- A baseline oracle: every external call succeeds, prompting yields
the password pw, authentication succeeds. -/
def world0 : World :=
  { convPrinc := none, synthMallocOk := true, aname := fun _ => none,
    pkinitCallocOk := true, pkinitOptAlloc := 0, pkinitSetOpt := 0,
    pkinitExchange := 0, callocOk := true, optAlloc := 0, getItem := none,
    prompts := fun _ => some ("pw".toList), setItemOk := true,
    auth := fun _ _ => 0, verify := 0, k5env := envNone }

/-- Baseline module configuration: plain password authentication. -/
def args0 : PamArgs :=
  { ctxSet := true, name := "alice".toList, defaultRealm := "DEF.ORG".toList,
    realm := none, prompt_princ := false, search_k5login := false,
    pkinitSupported := false, use_pkinit := false, try_pkinit := false,
    try_first_pass := false, use_first_pass := false, use_authtok := false }

/-- Trust file owned by uid 1234, neither root nor the account (1000). -/
def envC2 : K5Env :=
  { pwd := some pwEx, mallocOk := true, accessOk := true, fopenOk := true,
    fstatUid := some 1234, errnoVal := 13,
    chunks := ["bob@DEF.ORG\n".toList] }

/-- Trust file owned by the account, with three well-formed candidate
lines of which only the second realm's exchange succeeds. -/
def envC3 : K5Env :=
  { pwd := some pwEx, mallocOk := true, accessOk := true, fopenOk := true,
    fstatUid := some 1000, errnoVal := 0,
    chunks := ["bob@ONE.ORG\n".toList, "bob@TWO.ORG\n".toList,
               "bob@THREE.ORG\n".toList] }

/-- Exchange oracle for the envC3 run: only the TWO.ORG candidate's
password is accepted. -/
def authC3 : Principal → CStr → Int :=
  fun q _ => if q.realm = "TWO.ORG".toList then 0 else 5

/-- Trust file owned by the account whose lines are one unparsable line
(two realm separators) and one unterminated chunk. -/
def envC8 : K5Env :=
  { pwd := some pwEx, mallocOk := true, accessOk := true, fopenOk := true,
    fstatUid := some 1000, errnoVal := 0,
    chunks := ["x@@y\n".toList, "junk".toList] }

/-- Module configuration for the retry-loop runs: try_first_pass set. -/
def argsC4 : PamArgs :=
  { args0 with try_first_pass := true }

/-- Oracle for the retry-loop runs: a stored password is available,
prompting always succeeds, and every exchange fails with the
credential-mismatch error. -/
def worldC4 : World :=
  { world0 with auth := fun _ _ => KRB5KRB_AP_ERR_BAD_INTEGRITY,
                getItem := some ("st".toList) }

/-- Oracle for the verification run: acquisition succeeds and
verify_creds fails with code 5. -/
def worldC5 : World :=
  { world0 with verify := 5 }

/-- Oracle for the error-mapping run: every exchange reports an expired
key. -/
def worldC6 : World :=
  { world0 with auth := fun _ _ => KRB5KDC_ERR_KEY_EXP }

/-- Configuration whose working name is a prompted override containing
a realm separator. -/
def argsC7x : PamArgs :=
  { args0 with prompt_princ := true, realm := some ("EXAMPLE.COM".toList) }

/-- Oracle answering the principal prompt with bob@OTHER.ORG. -/
def worldC7x : World :=
  { world0 with convPrinc := some ("bob@OTHER.ORG".toList) }

/-- Configuration whose configured default realm itself contains a
realm separator. -/
def argsC7y : PamArgs :=
  { args0 with realm := some ("A@B".toList) }

/-- Configuration for the amended realm-completion run. -/
def argsC7 : PamArgs :=
  { args0 with realm := some ("EXAMPLE.COM".toList) }

/-- Configuration with a null per-attempt context. -/
def argsC10 : PamArgs :=
  { args0 with ctxSet := false }

/-- FAST configuration: no configured cache, anonymous armoring
allowed, caches under FILE:/tmp. -/
def cfgC9 : FastConfig :=
  { fast_ccache := none, anon_fast := true, ccache_dir := "FILE:/tmp".toList }

/-- FAST oracle: every library call succeeds; mkstemp picks the suffix
ab12cd. -/
def fwC9 : FastWorld :=
  { getDefaultRealm := some ("EX.ORG".toList), getDefaultRealmErr := -1,
    buildPrincErr := 0, asprintfOk := true, asprintfErrno := 12,
    mkstempSuffix := some ("ab12cd".toList), mkstempErrno := 13,
    ccResolveErr := 0, optAllocErr := 0, getInitCredsAnon := 0,
    ccResolveCfgErr := 0, ccGetPrincErr := 0, getFullNameErr := 0 }

/-- When no chunk of the file yields a parsable candidate, the read
loop never attempts an exchange and returns PAM_AUTH_ERR with `*retval`
unchanged. -/
theorem k5loginLoop_no_candidates (c : KrbContext)
    (auth : Principal → CStr → Int) (pass : CStr) (princ0 : Principal) :
    ∀ (chunks : List CStr) (skipping : Bool) (rv : Int) (att : List Principal),
      (∀ ch ∈ chunks, chunkTerminated ch = true →
        krb5_parse_name c ch.dropLast = none) →
      k5loginLoop c auth pass princ0 chunks skipping rv att =
        ⟨PAM_AUTH_ERR, rv, princ0, att⟩ := by
  intro chunks
  induction chunks with
  | nil => intro skipping rv att _; cases skipping <;> rfl
  | cons ch rest ih =>
      intro skipping rv att h
      have hch := h ch (by simp)
      have hrest : ∀ x ∈ rest, chunkTerminated x = true →
          krb5_parse_name c x.dropLast = none :=
        fun x hx => h x (by simp [hx])
      cases skipping with
      | false =>
          by_cases ht : chunkTerminated ch = true
          · simp only [k5loginLoop, Bool.false_eq_true, if_false, ht,
              not_true_eq_false, hch ht]
            exact ih _ _ _ hrest
          · simp only [k5loginLoop, Bool.false_eq_true, if_false,
              Bool.not_eq_true] at *
            simp only [ht, not_false_eq_true, if_true]
            exact ih _ _ _ hrest
      | true =>
          by_cases ht : chunkTerminated ch = true <;>
            simp only [k5loginLoop, if_true, ht, Bool.false_eq_true, if_false] <;>
            exact ih _ _ _ hrest

/-- Claim C2: for every trust-file authentication attempt in which the
per-account trust file is opened but is owned neither by the account
itself nor by uid 0, the operation returns an authentication failure
(never success) and no candidate identity from that file is
attempted. -/
theorem claim_c2_trust_file_ownership (c : KrbContext)
    (auth : Principal → CStr → Int) (princ0 : Principal) (pass : CStr)
    (env : K5Env) (pw : Passwd) (uid : Nat)
    (henv : env.pwd = some pw) (hm : env.mallocOk = true)
    (hacc : env.accessOk = true) (hop : env.fopenOk = true)
    (hst : env.fstatUid = some uid) (h0 : uid ≠ 0) (hw : uid ≠ pw.pw_uid) :
    k5login_password_auth c auth princ0 pass env =
      ⟨PAM_AUTH_ERR, env.errnoVal, princ0, []⟩ ∧
    PAM_AUTH_ERR ≠ PAM_SUCCESS := by
  refine ⟨?_, by decide⟩
  simp only [k5login_password_auth, henv, hm, hacc, hop, hst, h0, hw,
    not_true_eq_false, or_self, Bool.false_eq_true, if_false, ne_eq,
    not_false_eq_true, and_self, if_true]

/-- Claim C2 witness: a concrete trust file owned by uid 1234 for
account uid 1000 is refused with an authentication failure and no
attempts, although the exchange oracle would have accepted any
candidate. -/
theorem claim_c2_witness :
    k5login_password_auth ctxEx (fun _ _ => 0) princEx ("pw".toList) envC2 =
      ⟨PAM_AUTH_ERR, 13, princEx, []⟩ ∧
    PAM_AUTH_ERR ≠ PAM_SUCCESS := by
  have h := claim_c2_trust_file_ownership ctxEx (fun _ _ => 0) princEx
    ("pw".toList) envC2 pwEx 1234 rfl rfl rfl rfl rfl (by decide) (by decide)
  exact ⟨h.1, h.2⟩

/-- Claim C8: for every trust file (opened with acceptable ownership)
containing zero chunks that parse as a valid identity, trust-file
authentication fails with PAM_AUTH_ERR and the error reported by
reference is KRB5KRB_AP_ERR_BAD_INTEGRITY, the credential-mismatch
kind, with no exchange attempted. -/
theorem claim_c8_no_parsable_lines (c : KrbContext)
    (auth : Principal → CStr → Int) (princ0 : Principal) (pass : CStr)
    (env : K5Env) (pw : Passwd)
    (henv : env.pwd = some pw) (hm : env.mallocOk = true)
    (hacc : env.accessOk = true) (hop : env.fopenOk = true)
    (hst : env.fstatUid = some pw.pw_uid)
    (hchunks : ∀ ch ∈ env.chunks, chunkTerminated ch = true →
      krb5_parse_name c ch.dropLast = none) :
    k5login_password_auth c auth princ0 pass env =
      ⟨PAM_AUTH_ERR, KRB5KRB_AP_ERR_BAD_INTEGRITY, princ0, []⟩ := by
  simp only [k5login_password_auth, henv, hm, hacc, hop, hst,
    not_true_eq_false, or_self, Bool.false_eq_true, if_false, ne_eq,
    not_true, and_false, if_false]
  exact k5loginLoop_no_candidates c auth pass princ0 env.chunks false _ [] hchunks

/-- Claim C8 witness: a concrete trust file whose only lines are an
unparsable one and an unterminated chunk reports the
credential-mismatch error. -/
theorem claim_c8_witness :
    k5login_password_auth ctxEx (fun _ _ => 0) princEx ("pw".toList) envC8 =
      ⟨PAM_AUTH_ERR, KRB5KRB_AP_ERR_BAD_INTEGRITY, princEx, []⟩ := by
  exact claim_c8_no_parsable_lines ctxEx (fun _ _ => 0) princEx ("pw".toList)
    envC8 pwEx rfl rfl rfl rfl rfl (by decide)

/-- A prefix of well-formed candidate chunks that all fail the exchange
is consumed by the read loop one attempt per chunk, leaving the loop at
the remaining chunks with the prefix's candidates recorded as
attempted. -/
theorem k5loginLoop_prefix_fail (c : KrbContext)
    (auth : Principal → CStr → Int) (pass : CStr) (princ0 : Principal) :
    ∀ (pre rest : List CStr) (rv : Int) (att : List Principal),
      (∀ ch ∈ pre, failingCandB c auth pass ch = true) →
      ∃ rv2, k5loginLoop c auth pass princ0 (pre ++ rest) false rv att =
        k5loginLoop c auth pass princ0 rest false rv2 (att ++ lineCands c pre) := by
  intro pre
  induction pre with
  | nil => intro rest rv att _; exact ⟨rv, by simp [lineCands]⟩
  | cons ch pre ih =>
      intro rest rv att h
      have hch := h ch (by simp)
      have hpre : ∀ x ∈ pre, failingCandB c auth pass x = true :=
        fun x hx => h x (by simp [hx])
      rw [failingCandB, Bool.and_eq_true] at hch
      obtain ⟨ht, hm⟩ := hch
      cases hq : krb5_parse_name c ch.dropLast with
      | none => rw [hq] at hm; simp at hm
      | some q =>
          rw [hq] at hm
          have hne : auth q pass ≠ 0 := by simpa using hm
          obtain ⟨rv2, heq⟩ := ih rest (auth q pass) (att ++ [q]) hpre
          refine ⟨rv2, ?_⟩
          rw [List.cons_append]
          simp only [k5loginLoop, Bool.false_eq_true, if_false, ht,
            not_true_eq_false, hq, hne, if_neg hne]
          rw [heq]
          have hl : lineCands c (ch :: pre) = q :: lineCands c pre := by
            simp [lineCands, hq]
          rw [hl]
          simp [List.append_assoc]

/-- Claim C3: for every trust file (opened with acceptable ownership)
whose chunks are a block of well-formed candidate lines that all fail
the exchange, then a well-formed candidate line whose exchange
succeeds, then anything at all, trust-file authentication returns
success, the context's principal afterwards is the successful
candidate (replacing the previously resolved one), and the attempted
candidates are exactly the failing block followed by the successful
one — nothing after it is attempted. -/
theorem claim_c3_first_success_wins (c : KrbContext)
    (auth : Principal → CStr → Int) (princ0 : Principal) (pass : CStr)
    (env : K5Env) (pw : Passwd) (pre post : List CStr) (chK : CStr)
    (p : Principal)
    (henv : env.pwd = some pw) (hm : env.mallocOk = true)
    (hacc : env.accessOk = true) (hop : env.fopenOk = true)
    (hst : env.fstatUid = some pw.pw_uid)
    (hch : env.chunks = pre ++ chK :: post)
    (hpre : ∀ ch ∈ pre, failingCandB c auth pass ch = true)
    (hK1 : chunkTerminated chK = true)
    (hK2 : krb5_parse_name c chK.dropLast = some p)
    (hK3 : auth p pass = 0) :
    k5login_password_auth c auth princ0 pass env =
      ⟨PAM_SUCCESS, 0, p, lineCands c pre ++ [p]⟩ := by
  simp only [k5login_password_auth, henv, hm, hacc, hop, hst,
    not_true_eq_false, or_self, Bool.false_eq_true, if_false, ne_eq,
    not_true, and_false, if_false, hch]
  obtain ⟨rv2, heq⟩ := k5loginLoop_prefix_fail c auth pass princ0 pre
    (chK :: post) KRB5KRB_AP_ERR_BAD_INTEGRITY [] hpre
  rw [heq]
  simp only [k5loginLoop, Bool.false_eq_true, if_false, hK1,
    not_true_eq_false, hK2, hK3, if_true, List.nil_append]

/-- Claim C3 witness: in a concrete three-line trust file where only
the second candidate's exchange succeeds, the call returns success,
the principal becomes bob@TWO.ORG, and only the first two candidates
were attempted. -/
theorem claim_c3_witness :
    k5login_password_auth ctxEx authC3 princEx ("pw".toList) envC3 =
      ⟨PAM_SUCCESS, 0, ⟨"bob".toList, "TWO.ORG".toList⟩,
        [⟨"bob".toList, "ONE.ORG".toList⟩, ⟨"bob".toList, "TWO.ORG".toList⟩]⟩ := by
  have h := claim_c3_first_success_wins ctxEx authC3 princEx ("pw".toList)
    envC3 pwEx ["bob@ONE.ORG\n".toList] ["bob@THREE.ORG\n".toList]
    ("bob@TWO.ORG\n".toList) ⟨"bob".toList, "TWO.ORG".toList⟩
    rfl rfl rfl rfl rfl rfl (by decide) (by decide) (by decide) (by decide)
  rw [h]
  decide

/-- A list not containing the separator yields it back unchanged when a
separator and a tail are appended: the split happens exactly at the
appended separator. -/
theorem splitRealm_append (u r : CStr) (hu : '@' ∉ u) :
    splitRealm (u ++ '@' :: r) = some (u, r) := by
  induction u with
  | nil => simp [splitRealm]
  | cons c u ih =>
      have h1 : ¬ c = '@' := fun h => hu (by simp [h])
      have h2 : '@' ∉ u := fun h => hu (by simp [h])
      simp only [List.cons_append, splitRealm, List.append_eq, if_neg h1,
        ih h2, Option.map_some']

/-- Bridge between the Boolean contains test and list membership. -/
theorem contains_eq_false_of_not_mem {l : CStr} {c : Char} (h : c ∉ l) :
    l.contains c = false := by
  rw [Bool.eq_false_iff]
  intro hc
  exact h (List.elem_iff.mp hc)

/-- parseTail preserves the parsed principal and records the parsed
string, whatever the local-name canonicalization does. -/
theorem parseTail_fields (a : PamArgs) (w : World) (u2 : CStr) (p : Principal)
    (h : krb5_parse_name ⟨a.defaultRealm⟩ u2 = some p) :
    (parseTail a w u2).princ = some p ∧
    (parseTail a w u2).parsedInput = some u2 := by
  by_cases hn : a.name.contains '@'
  · have hmem : '@' ∈ a.name := List.elem_iff.mp hn
    cases ha : w.aname p <;> simp [parseTail, h, ha, hmem]
  · have hmem : '@' ∉ a.name := fun hx => hn (List.elem_iff.mpr hx)
    simp [parseTail, h, hmem]

/-- Claim C7, counterexample: the claim quantifies over the raw account
name, but the synthesis operates on the working name.  First part: with
principal prompting enabled and an override bob@OTHER.ORG, the raw
account name alice has no separator and EXAMPLE.COM is configured, yet
resolution yields realm OTHER.ORG.  Second part: with a configured
realm A@B that itself contains a separator, the synthesized name fails
to parse and no identity is produced at all. -/
theorem claim_c7_counterexample :
    argsC7x.name.contains '@' = false ∧
    argsC7x.realm = some ("EXAMPLE.COM".toList) ∧
    (parse_name argsC7x worldC7x).princ =
      some ⟨"bob".toList, "OTHER.ORG".toList⟩ ∧
    (parse_name argsC7x worldC7x).princ.map Principal.realm ≠
      some ("EXAMPLE.COM".toList) ∧
    argsC7y.name.contains '@' = false ∧
    argsC7y.realm = some ("A@B".toList) ∧
    (parse_name argsC7y world0).princ = none := by
  decide

/-- Claim C7, amended: for every working name (the raw account name,
or the prompted override when principal prompting yields one) with no
realm separator, when a default realm with no separator is configured
and the synthesis allocation succeeds, parse_name hands the synthesized
`name@realm` to the parser and yields an identity whose realm is the
configured realm. -/
theorem claim_c7_amended_realm_completion (a : PamArgs) (w : World) (r : CStr)
    (hrealm : a.realm = some r)
    (hu : '@' ∉ resolveUser a w)
    (hr : '@' ∉ r)
    (hm : w.synthMallocOk = true) :
    (parse_name a w).princ = some ⟨resolveUser a w, r⟩ ∧
    (parse_name a w).parsedInput = some (resolveUser a w ++ '@' :: r) := by
  have hparse : krb5_parse_name ⟨a.defaultRealm⟩ (resolveUser a w ++ '@' :: r) =
      some ⟨resolveUser a w, r⟩ := by
    have hsplit := splitRealm_append (resolveUser a w) r hu
    have hc := contains_eq_false_of_not_mem hr
    simp [krb5_parse_name, hsplit, hc, hr]
  rw [parse_name, hrealm]
  simp only [contains_eq_false_of_not_mem hu, Bool.false_eq_true, if_false,
    hm, if_true]
  exact parseTail_fields a w _ _ hparse

/-- Claim C7 witness for the amended statement: raw name alice with
configured realm EXAMPLE.COM resolves to alice@EXAMPLE.COM. -/
theorem claim_c7_witness :
    (parse_name argsC7 world0).princ =
      some ⟨"alice".toList, "EXAMPLE.COM".toList⟩ ∧
    (parse_name argsC7 world0).parsedInput =
      some ("alice@EXAMPLE.COM".toList) := by
  have h := claim_c7_amended_realm_completion argsC7 world0
    ("EXAMPLE.COM".toList) rfl (by decide) (by decide) rfl
  exact ⟨h.1, by rw [h.2]; decide⟩

/-- The prompting iteration always consumes exactly one prompt. -/
theorem promptIteration_prompts (a : PamArgs) (w : World) (princ : Principal)
    (pIdx : Nat) (att : List Principal) :
    (promptIteration a w princ pIdx att).prompts = pIdx + 1 := by
  unfold promptIteration
  cases w.prompts pIdx with
  | none => rfl
  | some q =>
      by_cases hs : w.setItemOk
      · simp only [hs, not_true_eq_false, Bool.false_eq_true, if_false]
        split <;> rfl
      · simp only [hs]
        rfl

/-- Unfolding of the password loop at a present stored password (the
match reduces definitionally). -/
theorem passwordLoop_some_eq (a : PamArgs) (w : World) (princ : Principal)
    (p : CStr) (retry : Bool) (pIdx : Nat) (att : List Principal) :
    passwordLoop a w princ (some p) retry pIdx att =
      (if (loopAttempt a w princ p).success = PAM_SUCCESS then
        ⟨(loopAttempt a w princ p).retval, (loopAttempt a w princ p).princ,
          (if (loopAttempt a w princ p).retval = 0
            then (loopAttempt a w princ p).client else none),
          att ++ (loopAttempt a w princ p).tried, pIdx⟩
      else if retry ∧ (loopAttempt a w princ p).retval = KRB5KRB_AP_ERR_BAD_INTEGRITY then
        promptIteration a w (loopAttempt a w princ p).princ pIdx
          (att ++ (loopAttempt a w princ p).tried)
      else
        ⟨(loopAttempt a w princ p).retval, (loopAttempt a w princ p).princ,
          none, att ++ (loopAttempt a w princ p).tried, pIdx⟩) := rfl

/-- The password loop consumes at most one prompt. -/
theorem passwordLoop_prompts_le (a : PamArgs) (w : World) (princ : Principal)
    (pass : Option CStr) (retry : Bool) (pIdx : Nat) (att : List Principal) :
    (passwordLoop a w princ pass retry pIdx att).prompts ≤ pIdx + 1 := by
  cases pass with
  | none => exact le_of_eq (promptIteration_prompts a w princ pIdx att)
  | some p =>
      rw [passwordLoop_some_eq]
      split
      · exact Nat.le_succ pIdx
      · split
        · exact le_of_eq (promptIteration_prompts a w _ pIdx _)
        · exact Nat.le_succ pIdx

/-- Claim C4, counterexample: with a stored password, retry permitted,
prompting always available, and every exchange failing with the
credential-mismatch error, the loop makes exactly one interactive
prompt and then terminates with the mismatch error still pending,
although a further prompt was available and the claimed unlimited
retry would have used it. -/
theorem claim_c4_counterexample :
    (passwordLoop argsC4 worldC4 princEx (some ("st".toList)) true 0 []).prompts = 1 ∧
    (passwordLoop argsC4 worldC4 princEx (some ("st".toList)) true 0 []).retval =
      KRB5KRB_AP_ERR_BAD_INTEGRITY ∧
    ¬ 2 ≤ (passwordLoop argsC4 worldC4 princEx (some ("st".toList)) true 0 []).prompts ∧
    worldC4.prompts 1 = some ("pw".toList) ∧
    worldC4.auth princEx ("pw".toList) = KRB5KRB_AP_ERR_BAD_INTEGRITY := by
  refine ⟨rfl, rfl, by decide, rfl, rfl⟩

/-- Claim C4, amended: when the stored-password attempt fails with the
credential-mismatch error and retry is permitted, the loop clears the
cached password and runs the prompting iteration; when it fails with
any other error the loop terminates immediately with no prompt; and in
every case at most one interactive prompt occurs per call, because the
retry flag is cleared before prompting. -/
theorem claim_c4_amended_retry_once (a : PamArgs) (w : World)
    (princ : Principal) (p : CStr) :
    ((loopAttempt a w princ p).success ≠ PAM_SUCCESS →
      (loopAttempt a w princ p).retval = KRB5KRB_AP_ERR_BAD_INTEGRITY →
      passwordLoop a w princ (some p) true 0 [] =
        promptIteration a w (loopAttempt a w princ p).princ 0
          (loopAttempt a w princ p).tried) ∧
    ((loopAttempt a w princ p).success ≠ PAM_SUCCESS →
      (loopAttempt a w princ p).retval ≠ KRB5KRB_AP_ERR_BAD_INTEGRITY →
      passwordLoop a w princ (some p) true 0 [] =
        ⟨(loopAttempt a w princ p).retval, (loopAttempt a w princ p).princ,
          none, (loopAttempt a w princ p).tried, 0⟩) ∧
    (∀ pass retry pIdx att,
      (passwordLoop a w princ pass retry pIdx att).prompts ≤ pIdx + 1) := by
  refine ⟨?_, ?_, fun pass retry pIdx att =>
    passwordLoop_prompts_le a w princ pass retry pIdx att⟩
  · intro hsuc hbad
    rw [passwordLoop_some_eq]
    rw [if_neg hsuc, if_pos ⟨rfl, hbad⟩, List.nil_append]
  · intro hsuc hbad
    rw [passwordLoop_some_eq]
    rw [if_neg hsuc, if_neg (fun hc => hbad hc.2), List.nil_append]

/-- Claim C4 witness for the amended statement: the concrete
always-mismatch run takes the prompting branch after the stored
password fails, and a run failing with KDC-unreachable stops with no
prompt. -/
theorem claim_c4_witness :
    passwordLoop argsC4 worldC4 princEx (some ("st".toList)) true 0 [] =
      promptIteration argsC4 worldC4 princEx 0 [princEx] ∧
    (passwordLoop argsC4 worldC4 princEx (some ("st".toList)) true 0 []).prompts ≤ 1 := by
  have h := claim_c4_amended_retry_once argsC4 worldC4 princEx ("st".toList)
  exact ⟨h.1 (by decide) (by decide), h.2.2 (some ("st".toList)) true 0 []⟩

/-- The final mapping switch never yields the success code. -/
theorem mapKrbError_ne_success (e : Int) : mapKrbError e ≠ PAM_SUCCESS := by
  unfold mapKrbError
  split
  · decide
  · split
    · decide
    · split
      · decide
      · split <;> decide

/-- Every run of pamk5_password_auth ends either in one of the three
direct error returns or in the done block: any property holding of all
earlyAuthOut and doneBlock results holds of every run. -/
theorem auth_cases (a : PamArgs) (w : World) (s : Option CStr)
    (P : AuthOut → Prop)
    (he : ∀ rr ar, P (earlyAuthOut rr ar))
    (hd : ∀ rv cr cv rr ar att pr, P (doneBlock w s rv cr cv rr ar att pr)) :
    P (pamk5_password_auth a w s) := by
  unfold pamk5_password_auth passwordPhase
  repeat' split
  all_goals first | apply he | apply hd

/-- The done block returns success or releases the credentials. -/
theorem doneBlock_success_or_none (w : World) (s : Option CStr) (rv : Int)
    (cr : Option Creds) (cv rr ar : Bool) (att : List Principal) (pr : Nat) :
    (doneBlock w s rv cr cv rr ar att pr).code = PAM_SUCCESS ∨
    (doneBlock w s rv cr cv rr ar att pr).creds = none := by
  unfold doneBlock
  split
  · exact Or.inl rfl
  · exact Or.inr rfl

/-- Claim C1: every call to pamk5_password_auth either returns
PAM_SUCCESS or returns with the creds output null (any partially built
credential having been released): no credential escapes on a failure
path. -/
theorem claim_c1_no_partial_credential (a : PamArgs) (w : World)
    (s : Option CStr) :
    (pamk5_password_auth a w s).code = PAM_SUCCESS ∨
    (pamk5_password_auth a w s).creds = none := by
  exact auth_cases a w s
    (fun o => o.code = PAM_SUCCESS ∨ o.creds = none)
    (fun _ _ => Or.inr rfl)
    (fun rv cr cv rr ar att pr => doneBlock_success_or_none w s rv cr cv rr ar att pr)

/-- The done block runs verification iff the acquisition phase
reported success and no service was requested, and a failed
verification is terminal with the credentials released. -/
theorem doneBlock_verify_facts (w : World) (s : Option CStr) (rv : Int)
    (cr : Option Creds) (cv rr ar : Bool) (att : List Principal) (pr : Nat) :
    (doneBlock w s rv cr cv rr ar att pr).verifyRan =
      ((doneBlock w s rv cr cv rr ar att pr).acqOk && s.isNone) ∧
    ((doneBlock w s rv cr cv rr ar att pr).verifyRan = true → w.verify ≠ 0 →
      (doneBlock w s rv cr cv rr ar att pr).code ≠ PAM_SUCCESS ∧
      (doneBlock w s rv cr cv rr ar att pr).creds = none) := by
  constructor
  · unfold doneBlock
    split <;> rfl
  · intro hran hv
    have hran' : (rv == 0 && s.isNone) = true := by
      unfold doneBlock at hran
      split at hran <;> exact hran
    have h00 : rv = 0 ∧ s.isNone = true := by simpa using hran'
    have hd : doneRetval w s rv = w.verify := by
      unfold doneRetval
      rw [if_pos ⟨h00.1, h00.2⟩]
    unfold doneBlock
    rw [hd, if_neg hv]
    exact ⟨mapKrbError_ne_success _, rfl⟩

/-- Claim C5: credential verification runs exactly when the
acquisition phase reported success and the request is not
service-specific; when it runs and fails, the overall operation fails
and the provisional credential is discarded. -/
theorem claim_c5_verification_policy (a : PamArgs) (w : World)
    (s : Option CStr) :
    (pamk5_password_auth a w s).verifyRan =
      ((pamk5_password_auth a w s).acqOk && s.isNone) ∧
    ((pamk5_password_auth a w s).verifyRan = true → w.verify ≠ 0 →
      (pamk5_password_auth a w s).code ≠ PAM_SUCCESS ∧
      (pamk5_password_auth a w s).creds = none) := by
  exact auth_cases a w s
    (fun o => o.verifyRan = (o.acqOk && s.isNone) ∧
      (o.verifyRan = true → w.verify ≠ 0 →
        o.code ≠ PAM_SUCCESS ∧ o.creds = none))
    (fun _ _ => ⟨by simp [earlyAuthOut], fun hran _ => by simp [earlyAuthOut] at hran⟩)
    (fun rv cr cv rr ar att pr => doneBlock_verify_facts w s rv cr cv rr ar att pr)

/-- Claim C5 witness: a concrete run where acquisition succeeds with
no service and verification fails with code 5 runs verification, fails
overall and returns no credential. -/
theorem claim_c5_witness :
    (pamk5_password_auth args0 worldC5 none).verifyRan = true ∧
    worldC5.verify ≠ 0 ∧
    (pamk5_password_auth args0 worldC5 none).code ≠ PAM_SUCCESS ∧
    (pamk5_password_auth args0 worldC5 none).creds = none := by
  have h := claim_c5_verification_policy args0 worldC5 none
  have hv : worldC5.verify ≠ 0 := by decide
  exact ⟨rfl, hv, (h.2 rfl hv).1, (h.2 rfl hv).2⟩

/-- An error that reached the final mapping switch determines the
returned code through mapKrbError. -/
theorem doneBlock_premap (w : World) (s : Option CStr) (rv : Int)
    (cr : Option Creds) (cv rr ar : Bool) (att : List Principal) (pr : Nat)
    (e : Int) (h : (doneBlock w s rv cr cv rr ar att pr).preMapErr = some e) :
    (doneBlock w s rv cr cv rr ar att pr).code = mapKrbError e := by
  unfold doneBlock at h ⊢
  split at h
  next hcond => exact absurd h (by simp)
  next hcond =>
    rw [if_neg hcond]
    injection h with h2
    rw [h2]

/-- Claim C6: a terminal failure that reaches the final mapping pass
returns exactly mapKrbError of the pending error, and that map sends
unknown-principal to user-unknown, expired key to
new-credential-required, expired name to account-expired,
KDC-unreachable and realm-unresolvable to
authentication-info-unavailable, and every other error to the generic
authentication failure. -/
theorem claim_c6_error_mapping (a : PamArgs) (w : World) (s : Option CStr)
    (e : Int) (h : (pamk5_password_auth a w s).preMapErr = some e) :
    (pamk5_password_auth a w s).code = mapKrbError e ∧
    mapKrbError KRB5KDC_ERR_C_PRINCIPAL_UNKNOWN = PAM_USER_UNKNOWN ∧
    mapKrbError KRB5KDC_ERR_KEY_EXP = PAM_NEW_AUTHTOK_REQD ∧
    mapKrbError KRB5KDC_ERR_NAME_EXP = PAM_ACCT_EXPIRED ∧
    mapKrbError KRB5_KDC_UNREACH = PAM_AUTHINFO_UNAVAIL ∧
    mapKrbError KRB5_REALM_CANT_RESOLVE = PAM_AUTHINFO_UNAVAIL ∧
    (∀ x, x ≠ KRB5KDC_ERR_C_PRINCIPAL_UNKNOWN → x ≠ KRB5KDC_ERR_KEY_EXP →
      x ≠ KRB5KDC_ERR_NAME_EXP → x ≠ KRB5_KDC_UNREACH →
      x ≠ KRB5_REALM_CANT_RESOLVE → mapKrbError x = PAM_AUTH_ERR) := by
  refine ⟨?_, by decide, by decide, by decide, by decide, by decide, ?_⟩
  · exact auth_cases a w s
      (fun o => o.preMapErr = some e → o.code = mapKrbError e)
      (fun _ _ hh => absurd hh (by simp [earlyAuthOut]))
      (fun rv cr cv rr ar att pr hh =>
        doneBlock_premap w s rv cr cv rr ar att pr e hh) h
  · intro x h1 h2 h3 h4 h5
    unfold mapKrbError
    rw [if_neg h1, if_neg h2, if_neg h3, if_neg (not_or.mpr ⟨h4, h5⟩)]

/-- Claim C6 witness: a concrete run whose exchange fails with an
expired key reaches the mapping pass and returns
PAM_NEW_AUTHTOK_REQD. -/
theorem claim_c6_witness :
    (pamk5_password_auth args0 worldC6 none).preMapErr =
      some KRB5KDC_ERR_KEY_EXP ∧
    (pamk5_password_auth args0 worldC6 none).code = PAM_NEW_AUTHTOK_REQD := by
  have h := claim_c6_error_mapping args0 worldC6 none KRB5KDC_ERR_KEY_EXP rfl
  exact ⟨rfl, by rw [h.1]; exact h.2.2.1⟩

/-- Claim C10: when the per-attempt context is null, the operation
returns PAM_SERVICE_ERR at once: resolution never ran, no exchange was
attempted, no prompt was issued, and no credential buffer was
allocated. -/
theorem claim_c10_null_context (a : PamArgs) (w : World) (s : Option CStr)
    (h : a.ctxSet = false) :
    (pamk5_password_auth a w s).code = PAM_SERVICE_ERR ∧
    (pamk5_password_auth a w s).resolveRan = false ∧
    (pamk5_password_auth a w s).allocRan = false ∧
    (pamk5_password_auth a w s).attempted = [] ∧
    (pamk5_password_auth a w s).prompts = 0 ∧
    (pamk5_password_auth a w s).creds = none := by
  have heq : pamk5_password_auth a w s = earlyAuthOut false false := by
    unfold pamk5_password_auth
    simp [h]
  rw [heq]
  exact ⟨rfl, rfl, rfl, rfl, rfl, rfl⟩

/-- Claim C10 witness: the concrete null-context run. -/
theorem claim_c10_witness :
    argsC10.ctxSet = false ∧
    (pamk5_password_auth argsC10 world0 none).code = PAM_SERVICE_ERR ∧
    (pamk5_password_auth argsC10 world0 none).attempted = [] ∧
    (pamk5_password_auth argsC10 world0 none).allocRan = false := by
  have h := claim_c10_null_context argsC10 world0 none rfl
  exact ⟨rfl, h.1, h.2.2.2.1, h.2.2.1⟩

/-- Claim C9: when no configured armor cache is found valid and
anonymous armoring is allowed, the armor provisioner invokes the
anonymous initializer, which (given the library steps succeed up to
the exchange) requests credentials for the well-known anonymous
identity in the default realm, through a uniquely named cache file
built from the krb5cc_pam_armor_XXXXXX template under the cache
directory, with the anonymous flag set and a fixed 60-second ticket
lifetime. -/
theorem claim_c9_anonymous_armor (cfg : FastConfig) (fw : FastWorld)
    (realm sfx : CStr)
    (hinvalid : cfg.fast_ccache = none ∨
      ¬ (fw.ccResolveCfgErr = 0 ∧ fw.ccGetPrincErr = 0))
    (hanon : cfg.anon_fast = true)
    (hrealm : fw.getDefaultRealm = some realm)
    (hbuild : fw.buildPrincErr = 0)
    (hasp : fw.asprintfOk = true)
    (hmk : fw.mkstempSuffix = some sfx)
    (hres : fw.ccResolveErr = 0)
    (hopt : fw.optAllocErr = 0) :
    (pamk5_fast_setup cfg fw).anonInvoked = true ∧
    (pamk5_fast_setup cfg fw).anon = some (cache_init_anonymous cfg fw) ∧
    (cache_init_anonymous cfg fw).requestedPrinc =
      some ⟨KRB5_WELLKNOWN_NAME ++ '/' :: KRB5_ANON_NAME, realm⟩ ∧
    (cache_init_anonymous cfg fw).requestedLife = some 60 ∧
    (cache_init_anonymous cfg fw).requestedAnonymous = true ∧
    (cache_init_anonymous cfg fw).path =
      some (stripFileTag cfg.ccache_dir ++ ("/krb5cc_pam_armor_".toList ++ sfx)) := by
  have hfall : pamk5_fast_setup cfg fw = fallbackAnon cfg fw := by
    unfold pamk5_fast_setup
    rcases hinvalid with hnone | hbad
    · rw [hnone]
    · cases hcc : cfg.fast_ccache with
      | none => rfl
      | some cname => simp only [if_neg hbad]
  have hanonOut : ((cache_init_anonymous cfg fw).requestedPrinc =
      some ⟨KRB5_WELLKNOWN_NAME ++ '/' :: KRB5_ANON_NAME, realm⟩ ∧
      (cache_init_anonymous cfg fw).requestedLife = some 60 ∧
      (cache_init_anonymous cfg fw).requestedAnonymous = true ∧
      (cache_init_anonymous cfg fw).path =
        some (stripFileTag cfg.ccache_dir ++ ("/krb5cc_pam_armor_".toList ++ sfx))) := by
    unfold cache_init_anonymous
    rw [hrealm]
    by_cases hg : fw.getInitCredsAnon = 0 <;>
      simp [hbuild, hasp, hmk, hres, hopt, hg]
  have hinv : (fallbackAnon cfg fw).anonInvoked = true ∧
      (fallbackAnon cfg fw).anon = some (cache_init_anonymous cfg fw) := by
    unfold fallbackAnon
    rw [if_pos hanon]
    split
    · exact ⟨rfl, rfl⟩
    · split <;> exact ⟨rfl, rfl⟩
  rw [hfall]
  exact ⟨hinv.1, hinv.2, hanonOut.1, hanonOut.2.1, hanonOut.2.2.1,
    hanonOut.2.2.2⟩

/-- Claim C9 witness: the concrete no-configured-cache, anonymous-
allowed run requests WELLKNOWN/ANONYMOUS at EX.ORG with a 60-second
lifetime through /tmp/krb5cc_pam_armor_ab12cd. -/
theorem claim_c9_witness :
    (pamk5_fast_setup cfgC9 fwC9).anonInvoked = true ∧
    (cache_init_anonymous cfgC9 fwC9).requestedPrinc =
      some ⟨"WELLKNOWN/ANONYMOUS".toList, "EX.ORG".toList⟩ ∧
    (cache_init_anonymous cfgC9 fwC9).requestedLife = some 60 ∧
    (cache_init_anonymous cfgC9 fwC9).requestedAnonymous = true ∧
    (cache_init_anonymous cfgC9 fwC9).path =
      some ("/tmp/krb5cc_pam_armor_ab12cd".toList) := by
  have h := claim_c9_anonymous_armor cfgC9 fwC9 ("EX.ORG".toList)
    ("ab12cd".toList) (Or.inl rfl) rfl rfl rfl rfl rfl rfl rfl
  refine ⟨h.1, ?_, h.2.2.2.1, h.2.2.2.2.1, ?_⟩
  · rw [h.2.2.1]; decide
  · rw [h.2.2.2.2.2]; decide
